import Mathlib

/-
  Verification of the MindWell booking-and-payment backend core.

  The definitions below are a shallow embedding of the JavaScript source:
    - appointmentController.js  (createAppointment, getAvailableSlots,
      updateAppointment)
    - calendarController.js     (checkAvailability and its custom-hours test)
    - the inline POST /api/appointments route of server.js
    - paymentController.js      (submitPayment, verifyPayment, rejectPayment)
    - the mongoose schemas Appointment, Payment, CalendarSettings.

  Dates are modelled as days since the Unix epoch (a calendar day); the
  JavaScript Date.getDay weekday is (d + 4) % 7 because 1970-01-01 was a
  Thursday.  Times are hour-and-minute pairs, as parsed from the HH:MM
  strings the code manipulates.  Each controller is a pure function from a
  store (the MongoDB collections) and a request to a result and a new store;
  mongoose findOne is List.find?, create is list append, and save on a
  fetched document replaces the document with the same id.
-/

deriving instance DecidableEq for Except

namespace Mindwell

/-- Clock time as parsed from an HH:MM string. -/
structure HM where
  hour : Nat
  minute : Nat
deriving DecidableEq, Repr

/-- Minute-of-day of a clock time, exactly the arithmetic of
checkAvailability: parseInt(hours) * 60 + parseInt(minutes). -/
def timeInMinutes (t : HM) : Nat := t.hour * 60 + t.minute

/-- One element of CalendarSettings.customHours; the source fields are named
start and end (end is reserved in Lean, so the second field is stop). -/
structure HourRange where
  start : HM
  stop : HM
deriving DecidableEq, Repr

/-- The appointment status enum of the Appointment schema. -/
inductive AppStatus
  | pending
  | confirmed
  | cancelled
  | completed
deriving DecidableEq, Repr

/-- The paymentStatus enum of the Appointment schema. -/
inductive ApptPayStatus
  | pending
  | paid
  | verified
  | failed
deriving DecidableEq, Repr

/-- The status enum of the Payment schema. -/
inductive PaymentStatus
  | pending
  | verified
  | rejected
  | cancelled
deriving DecidableEq, Repr

/-- Error outcomes of the controllers, one constructor per distinct error
response of the source (the JSON error strings are mapped to the names the
spec uses for them). -/
inductive ApiError
  | SlotTaken
  | DateUnavailable
  | ValidationError
  | NotFound
  | AppointmentNotFound
  | DuplicatePayment
  | AlreadyVerified
  | InvalidReceipt
  | ReceiptStoreFailure
deriving DecidableEq, Repr

/-- An Appointment document, restricted to the fields the controllers under
verification read or write. -/
structure Appointment where
  id : Nat
  appointmentDate : Nat
  appointmentTime : HM
  status : AppStatus
  paymentStatus : ApptPayStatus
  paymentId : Option Nat
deriving DecidableEq, Repr

/-- A Payment document, restricted to the fields the controllers under
verification read or write. -/
structure Payment where
  id : Nat
  appointmentId : Nat
  amount : Nat
  status : PaymentStatus
  verifiedBy : Option String
  verificationNotes : Option String
  rejectedReason : Option String
deriving DecidableEq, Repr

/-- A CalendarSettings document. -/
structure CalendarSetting where
  date : Nat
  isAvailable : Bool
  customHours : List HourRange
  maxAppointments : Nat
deriving DecidableEq, Repr

/-- The MongoDB collections the controllers touch. -/
structure Store where
  appointments : List Appointment
  payments : List Payment
  settings : List CalendarSetting
deriving DecidableEq, Repr

/-- The JavaScript Date.getDay weekday (0 = Sunday .. 6 = Saturday) of an
epoch day; 1970-01-01 was a Thursday (getDay = 4). -/
def jsGetDay (d : Nat) : Nat := (d + 4) % 7

/-- The global slot list of getAvailableSlots and the appointmentTime enum
of the Appointment schema. -/
def defaultSlots : List HM :=
  [⟨9, 0⟩, ⟨10, 0⟩, ⟨11, 0⟩, ⟨14, 0⟩, ⟨15, 0⟩, ⟨16, 0⟩]

/-- A booking request body: the fields of POST /api/appointments the booking
logic reads, plus the identity MongoDB will assign to the created document. -/
structure BookingRequest where
  id : Nat
  appointmentDate : Nat
  appointmentTime : HM
deriving DecidableEq, Repr

/-- The findOne filter of createAppointment in appointmentController.js:
same date, same time, status in [pending, confirmed]. -/
def blocksSlot (d : Nat) (t : HM) (a : Appointment) : Bool :=
  decide (a.appointmentDate = d ∧ a.appointmentTime = t ∧
    (a.status = AppStatus.pending ∨ a.status = AppStatus.confirmed))

/-- The appointment document Appointment.create builds for a booking
request: schema defaults give status pending and paymentStatus pending. -/
def newAppointment (req : BookingRequest) : Appointment :=
  { id := req.id
    appointmentDate := req.appointmentDate
    appointmentTime := req.appointmentTime
    status := AppStatus.pending
    paymentStatus := ApptPayStatus.pending
    paymentId := none }

/-- createAppointment of appointmentController.js: findOne for a pending or
confirmed appointment on the same (date, time); if found, reply that the
slot is already booked; otherwise Appointment.create (whose schema validator
rejects an appointmentTime outside the slot enum). -/
def createAppointment (s : Store) (req : BookingRequest) :
    Except ApiError Appointment × Store :=
  match s.appointments.find? (blocksSlot req.appointmentDate req.appointmentTime) with
  | some _ => (Except.error ApiError.SlotTaken, s)
  | none =>
    if req.appointmentTime ∈ defaultSlots then
      let appt := newAppointment req
      (Except.ok appt, { s with appointments := s.appointments ++ [appt] })
    else
      (Except.error ApiError.ValidationError, s)

/-- The fields an admin PUT /api/appointments/:id may change that matter to
the booking invariants. -/
structure AppointmentUpdate where
  status : Option AppStatus
  paymentStatus : Option ApptPayStatus
deriving DecidableEq, Repr

/-- Application of an update body to a document, as findByIdAndUpdate does:
fields present in the body replace the stored ones. -/
def applyUpdate (u : AppointmentUpdate) (a : Appointment) : Appointment :=
  { a with
    status := u.status.getD a.status
    paymentStatus := u.paymentStatus.getD a.paymentStatus }

/-- updateAppointment of appointmentController.js: findByIdAndUpdate, 404
when the id is absent. -/
def updateAppointment (s : Store) (i : Nat) (u : AppointmentUpdate) :
    Except ApiError Appointment × Store :=
  match s.appointments.find? (fun a => decide (a.id = i)) with
  | none => (Except.error ApiError.NotFound, s)
  | some a =>
    let a2 := applyUpdate u a
    (Except.ok a2,
      { s with appointments := s.appointments.map (fun b => if b.id = i then a2 else b) })

/-- getAvailableSlots of appointmentController.js: weekends give the empty
list; otherwise the global slot list minus the times of pending or confirmed
appointments on the date.  The function never reads CalendarSettings. -/
def getAvailableSlots (s : Store) (d : Nat) : List HM :=
  if jsGetDay d = 0 ∨ jsGetDay d = 6 then []
  else
    let booked := s.appointments.filter (fun a =>
      decide (a.appointmentDate = d ∧
        (a.status = AppStatus.pending ∨ a.status = AppStatus.confirmed)))
    let bookedTimes := booked.map (fun a => a.appointmentTime)
    defaultSlots.filter (fun t => decide (t ∉ bookedTimes))

/-- The findOne filter of the POST /api/appointments route of server.js:
same date, same time, no status condition. -/
def sameSlot (d : Nat) (t : HM) (a : Appointment) : Bool :=
  decide (a.appointmentDate = d ∧ a.appointmentTime = t)

/-- The second half of the POST /api/appointments route of server.js: the
slot-exists findOne has no status filter at all, then Appointment.create
with status pending (the schema enum still constrains appointmentTime). -/
def serverCreateSlotPhase (s : Store) (req : BookingRequest) :
    Except ApiError Appointment × Store :=
  match s.appointments.find? (sameSlot req.appointmentDate req.appointmentTime) with
  | some _ => (Except.error ApiError.SlotTaken, s)
  | none =>
    if req.appointmentTime ∈ defaultSlots then
      let appt := newAppointment req
      (Except.ok appt, { s with appointments := s.appointments ++ [appt] })
    else
      (Except.error ApiError.ValidationError, s)

/-- The POST /api/appointments route of server.js: look up the calendar
setting of the booking day; if one exists and says unavailable, refuse;
otherwise run the slot check and create.  The route reads only isAvailable
from the setting: customHours and maxAppointments are never consulted. -/
def serverCreateAppointment (s : Store) (req : BookingRequest) :
    Except ApiError Appointment × Store :=
  match s.settings.find? (fun c => decide (c.date = req.appointmentDate)) with
  | some c =>
    if c.isAvailable then serverCreateSlotPhase s req
    else (Except.error ApiError.DateUnavailable, s)
  | none => serverCreateSlotPhase s req

/-- The custom-hours test inside checkAvailability of calendarController.js:
the time is valid when some range has start ≤ time < end in minute-of-day
arithmetic. -/
def isSlotWithinHours (t : HM) (ranges : List HourRange) : Bool :=
  ranges.any (fun r =>
    decide (timeInMinutes r.start ≤ timeInMinutes t ∧
      timeInMinutes t < timeInMinutes r.stop))

/-- checkAvailability of calendarController.js, reduced to its boolean
verdict: with a setting, the verdict is its isAvailable flag, forced to
false when custom hours exist and the time falls outside all of them;
without a setting, weekends are unavailable and weekdays available. -/
def checkAvailability (s : Store) (d : Nat) (t : HM) : Bool :=
  match s.settings.find? (fun c => decide (c.date = d)) with
  | some c =>
    if c.customHours ≠ [] ∧ isSlotWithinHours t c.customHours = false then false
    else c.isAvailable
  | none => decide (¬ (jsGetDay d = 0 ∨ jsGetDay d = 6))

/-- The uploaded receipt file multer hands to submitPayment (req.file). -/
structure ReceiptFile where
  path : String
  mimetype : String
  size : Nat
deriving DecidableEq, Repr

/-- The allowed mime types of CloudinaryService.validateFile. -/
def allowedTypes : List String :=
  ["image/jpeg", "image/png", "image/jpg", "application/pdf"]

/-- CloudinaryService.validateFile: the mime type must be allowed and the
size at most 10 MiB. -/
def validateFile (f : ReceiptFile) : Bool :=
  decide (f.mimetype ∈ allowedTypes) && decide (f.size ≤ 10 * 1024 * 1024)

/-- The data a successful Cloudinary upload returns to submitPayment. -/
structure UploadSuccess where
  url : String
  publicId : String
deriving DecidableEq, Repr

/-- A payment submission body (POST /api/payments) together with the
identity MongoDB will assign to the created Payment and the receipt file
multer already wrote to the uploads directory. -/
structure SubmitRequest where
  newPaymentId : Nat
  appointmentId : Nat
  amount : Option Nat
  receipt : ReceiptFile
deriving DecidableEq, Repr

/-- The Payment document Payment.create builds for a submission: snapshot
fields, amount from the body or the 3000 default, status pending. -/
def newPayment (req : SubmitRequest) : Payment :=
  { id := req.newPaymentId
    appointmentId := req.appointmentId
    amount := req.amount.getD 3000
    status := PaymentStatus.pending
    verifiedBy := none
    verificationNotes := none
    rejectedReason := none }

/-- The appointment update the submission saves: paymentStatus paid, the
new payment linked. -/
def paidAppt (a : Appointment) (payId : Nat) : Appointment :=
  { a with
    paymentStatus := ApptPayStatus.paid
    paymentId := some payId }

/-- submitPayment of paymentController.js.  The store is paired with the
list of local temp files on disk (multer has already written the receipt
there), and the object-store collaborator is an explicit outcome parameter.
Check order follows the source: appointment findById, duplicate Payment
findOne, file validation, Cloudinary upload.  On upload success
CloudinaryService.uploadImage unlinks the local file; on upload failure the
controller replies with the store-failure error and returns without
unlinking (the unlink call sits only in the exception handler, which this
branch never reaches). -/
def submitPayment (s : Store) (tempFiles : List String) (req : SubmitRequest)
    (uploadOutcome : Except String UploadSuccess) :
    Except ApiError Payment × Store × List String :=
  match s.appointments.find? (fun a => decide (a.id = req.appointmentId)) with
  | none => (Except.error ApiError.AppointmentNotFound, s, tempFiles)
  | some appt =>
    match s.payments.find? (fun p => decide (p.appointmentId = req.appointmentId)) with
    | some _ => (Except.error ApiError.DuplicatePayment, s, tempFiles)
    | none =>
      if validateFile req.receipt then
        match uploadOutcome with
        | Except.error _ => (Except.error ApiError.ReceiptStoreFailure, s, tempFiles)
        | Except.ok _ =>
          let tempFiles2 := tempFiles.filter (fun q => decide (q ≠ req.receipt.path))
          let payment := newPayment req
          let appt2 := paidAppt appt payment.id
          (Except.ok payment,
            { s with
              payments := s.payments ++ [payment]
              appointments := s.appointments.map (fun b : Appointment => if b.id = appt.id then appt2 else b) },
            tempFiles2)
      else
        (Except.error ApiError.InvalidReceipt, s, tempFiles)

/-- The document update the verify branch saves on the payment: status
verified, verifier identity, verification notes. -/
def verifiedPayment (p : Payment) (admin : String) (notes : Option String) : Payment :=
  { p with
    status := PaymentStatus.verified
    verifiedBy := some admin
    verificationNotes := notes }

/-- The document update the verify branch saves on the appointment:
status confirmed, paymentStatus verified. -/
def confirmAppt (a : Appointment) : Appointment :=
  { a with
    paymentStatus := ApptPayStatus.verified
    status := AppStatus.confirmed }

/-- The document update the reject branch saves on the payment: status
rejected, reason recorded. -/
def rejectedPayment (p : Payment) (r : String) : Payment :=
  { p with
    status := PaymentStatus.rejected
    rejectedReason := some r }

/-- The document update the reject branch saves on the appointment:
status cancelled, paymentStatus failed. -/
def cancelAppt (a : Appointment) : Appointment :=
  { a with
    paymentStatus := ApptPayStatus.failed
    status := AppStatus.cancelled }

/-- verifyPayment of paymentController.js: findById the payment, refuse when
already verified, otherwise save it as verified and, when the referenced
appointment exists, save that as confirmed with paymentStatus verified; a
missing appointment is skipped silently. -/
def verifyPayment (s : Store) (paymentId : Nat) (notes : Option String)
    (adminUser : String) : Except ApiError Payment × Store :=
  match s.payments.find? (fun p => decide (p.id = paymentId)) with
  | none => (Except.error ApiError.NotFound, s)
  | some p =>
    if p.status = PaymentStatus.verified then
      (Except.error ApiError.AlreadyVerified, s)
    else
      let p2 := verifiedPayment p adminUser notes
      let s2 := { s with payments := s.payments.map (fun q : Payment => if q.id = p.id then p2 else q) }
      match s2.appointments.find? (fun a : Appointment => decide (a.id = p.appointmentId)) with
      | some a =>
        let a2 := confirmAppt a
        (Except.ok p2,
          { s2 with appointments := s2.appointments.map (fun b : Appointment => if b.id = a.id then a2 else b) })
      | none => (Except.ok p2, s2)

/-- Whitespace in the sense of the JavaScript String trim method, for the
characters that can occur in our reasons. -/
def isJsWhitespace (c : Char) : Bool :=
  decide (c = ' ' ∨ c = '\t' ∨ c = '\n' ∨ c = '\r')

/-- Length of reason.trim(): leading and trailing whitespace removed. -/
def trimmedLength (s : String) : Nat :=
  ((s.toList.dropWhile isJsWhitespace).reverse.dropWhile isJsWhitespace).length

/-- rejectPayment of paymentController.js: a missing reason or one whose
trimmed length is below 5 is refused before anything is read; otherwise the
payment is saved as rejected and, when the referenced appointment exists, it
is saved as cancelled with paymentStatus failed. -/
def rejectPayment (s : Store) (paymentId : Nat) (reason : Option String) :
    Except ApiError Payment × Store :=
  match reason with
  | none => (Except.error ApiError.ValidationError, s)
  | some r =>
    if trimmedLength r < 5 then (Except.error ApiError.ValidationError, s)
    else
      match s.payments.find? (fun p => decide (p.id = paymentId)) with
      | none => (Except.error ApiError.NotFound, s)
      | some p =>
        let p2 := rejectedPayment p r
        let s2 := { s with payments := s.payments.map (fun q : Payment => if q.id = p.id then p2 else q) }
        match s2.appointments.find? (fun a : Appointment => decide (a.id = p.appointmentId)) with
        | some a =>
          let a2 := cancelAppt a
          (Except.ok p2,
            { s2 with appointments := s2.appointments.map (fun b : Appointment => if b.id = a.id then a2 else b) })
        | none => (Except.ok p2, s2)

/-- First document matching an id in the payments collection, as findById. -/
def getPayment (s : Store) (i : Nat) : Option Payment :=
  s.payments.find? (fun p => decide (p.id = i))

/-- First document matching an id in the appointments collection. -/
def getAppointment (s : Store) (i : Nat) : Option Appointment :=
  s.appointments.find? (fun a => decide (a.id = i))

/-- Number of pending or confirmed appointments holding a (date, time)
pair. -/
def activeCount (s : Store) (d : Nat) (t : HM) : Nat :=
  s.appointments.countP (blocksSlot d t)

/-- Number of non-cancelled appointments on a date, the quantity the
maxAppointments cap of the spec is about. -/
def nonCancelledOn (s : Store) (d : Nat) : Nat :=
  s.appointments.countP (fun a =>
    decide (a.appointmentDate = d ∧ a.status ≠ AppStatus.cancelled))

/-- Invariant: at most one pending-or-confirmed appointment per (date, time)
pair. -/
def slotInvariant (s : Store) : Prop :=
  ∀ d t, activeCount s d t ≤ 1

/-- Invariant: at most one Payment references any given appointment. -/
def onePaymentPerAppointment (s : Store) : Prop :=
  ∀ aid, s.payments.countP (fun p => decide (p.appointmentId = aid)) ≤ 1

/-- The read phase of createAppointment (the findOne of lines 12-16), used
to express interleavings of two concurrent requests. -/
def slotIsFree (s : Store) (d : Nat) (t : HM) : Bool :=
  (s.appointments.find? (blocksSlot d t)).isNone

/-- The write phase of createAppointment (the Appointment.create of line
25), used to express interleavings of two concurrent requests. -/
def insertAppointment (s : Store) (req : BookingRequest) : Store :=
  { s with appointments := s.appointments ++ [newAppointment req] }

/-- First CalendarSettings document matching a date, as the per-day lookup
queries of server.js and calendarController.js resolve it. -/
def getSetting (s : Store) (d : Nat) : Option CalendarSetting :=
  s.settings.find? (fun c => decide (c.date = d))

/-- Number of non-cancelled appointments holding a (date, time) pair, the
quantity the slot-uniqueness invariant of the spec counts. -/
def nonCancelledAt (s : Store) (d : Nat) (t : HM) : Nat :=
  s.appointments.countP (fun a =>
    decide (a.appointmentDate = d ∧ a.appointmentTime = t ∧
      a.status ≠ AppStatus.cancelled))

/-
  Concrete data for the counterexample and witness theorems.  Epoch day
  19884 is 2024-06-10, a Monday (jsGetDay = 1); epoch day 19889 is
  2024-06-15, a Saturday (jsGetDay = 6).
-/

/-- The empty database. -/
def emptyStore : Store := ⟨[], [], []⟩

/-- Booking request for 2024-06-10 at 10:00, document id 1. -/
def c1Req1 : BookingRequest := ⟨1, 19884, ⟨10, 0⟩⟩

/-- Booking request for the same (date, time) pair, document id 2. -/
def c1Req2 : BookingRequest := ⟨2, 19884, ⟨10, 0⟩⟩

/-- Store after the first booking succeeded. -/
def c1S1 : Store := (createAppointment emptyStore c1Req1).2

/-- Store after the admin marked the booked appointment completed. -/
def c1S2 : Store := (updateAppointment c1S1 1 ⟨some AppStatus.completed, none⟩).2

/-- Store after a second create for the already-held pair. -/
def c1S3 : Store := (createAppointment c1S2 c1Req2).2

/-- Store whose only appointment on the pair is cancelled, for exercising
the status-free slot check of the server.js booking route. -/
def c1CancelledStore : Store :=
  ⟨[⟨1, 19884, ⟨10, 0⟩, AppStatus.cancelled, ApptPayStatus.failed, none⟩], [], []⟩

/-- Second booking request of the race scenario. -/
def raceReqB : BookingRequest := ⟨2, 19884, ⟨10, 0⟩⟩

/-- Calendar override capping 2024-06-10 at one appointment. -/
def capSetting : CalendarSetting := ⟨19884, true, [], 1⟩

/-- Store whose single non-cancelled appointment already fills the cap. -/
def capStore : Store :=
  ⟨[⟨1, 19884, ⟨9, 0⟩, AppStatus.pending, ApptPayStatus.pending, none⟩], [], [capSetting]⟩

/-- Booking request for a free slot on the capped date. -/
def capReq : BookingRequest := ⟨2, 19884, ⟨10, 0⟩⟩

/-- Calendar override marking 2024-06-10 unavailable. -/
def c6Setting : CalendarSetting := ⟨19884, false, [], 8⟩

/-- Store holding only that override. -/
def c6Store : Store := ⟨[], [], [c6Setting]⟩

/-- The custom hour range 09:00 to 12:00 of end-to-end scenario D. -/
def juneHours : List HourRange := [⟨⟨9, 0⟩, ⟨12, 0⟩⟩]

/-- Override for 2024-06-15: available with custom hours 09:00 to 12:00. -/
def c7Setting : CalendarSetting := ⟨19889, true, juneHours, 8⟩

/-- Store holding only that override. -/
def c7Store : Store := ⟨[], [], [c7Setting]⟩

/-- An appointment awaiting payment, document id 1. -/
def c9Appt : Appointment :=
  ⟨1, 19884, ⟨10, 0⟩, AppStatus.pending, ApptPayStatus.pending, none⟩

/-- Store holding only that appointment. -/
def c9Store : Store := ⟨[c9Appt], [], []⟩

/-- A valid receipt file multer wrote to the uploads directory. -/
def c9Receipt : ReceiptFile := ⟨"uploads/receipt-1.png", "image/png", 2048⟩

/-- Payment submission for appointment 1 with that receipt. -/
def c9Req : SubmitRequest := ⟨1, 1, none, c9Receipt⟩

/-- An appointment that already has a submitted payment. -/
def c5Appt : Appointment :=
  ⟨1, 19884, ⟨10, 0⟩, AppStatus.pending, ApptPayStatus.paid, some 1⟩

/-- The pending payment of that appointment. -/
def c5Pay : Payment := ⟨1, 1, 3000, PaymentStatus.pending, none, none, none⟩

/-- Store with one appointment and its pending payment. -/
def c5Store : Store := ⟨[c5Appt], [c5Pay], []⟩

/-- A rejection reason of length five consisting only of spaces. -/
def fiveSpaces : String := "     "

/-- An appointment awaiting its first payment submission. -/
def c8Appt : Appointment :=
  ⟨1, 19884, ⟨10, 0⟩, AppStatus.pending, ApptPayStatus.pending, none⟩

/-- Store holding only that appointment. -/
def c8Store : Store := ⟨[c8Appt], [], []⟩

/-- A valid receipt for the first submission. -/
def c8Receipt : ReceiptFile := ⟨"uploads/receipt-2.png", "image/jpeg", 4096⟩

/-- The submission request for appointment 1. -/
def c8Req : SubmitRequest := ⟨1, 1, some 3000, c8Receipt⟩

/-- A successful upload outcome for that receipt. -/
def c8Up : Except String UploadSuccess :=
  Except.ok ⟨"https://res.cloudinary.com/receipt-2", "mindwell_payments/receipt-2"⟩

/-- The payment record the first submission creates. -/
def c8Pay : Payment := ⟨1, 1, 3000, PaymentStatus.pending, none, none, none⟩

/-- The store after the first submission succeeded. -/
def c8Store2 : Store :=
  ⟨[⟨1, 19884, ⟨10, 0⟩, AppStatus.pending, ApptPayStatus.paid, some 1⟩], [c8Pay], []⟩

/-- An already-verified payment for appointment 1. -/
def c4VerPay : Payment :=
  ⟨1, 1, 3000, PaymentStatus.verified, some "admin", none, none⟩

/-- The confirmed appointment that payment belongs to. -/
def c4VerAppt : Appointment :=
  ⟨1, 19884, ⟨10, 0⟩, AppStatus.confirmed, ApptPayStatus.verified, some 1⟩

/-- Store with an already-verified payment and its appointment. -/
def c4VerStore : Store := ⟨[c4VerAppt], [c4VerPay], []⟩

/-- A pending payment whose appointment, id 42, no longer exists. -/
def c10Pay : Payment := ⟨1, 42, 3000, PaymentStatus.pending, none, none, none⟩

/-- Store holding only that orphaned payment. -/
def c10Store : Store := ⟨[], [c10Pay], []⟩

/-- A mongoose save of a fetched document replaces, in the collection, the
documents carrying the key of the first document a search by that key
found; the same search afterwards finds the replacement, provided the
replacement keeps the key. -/
theorem find?_map_replace_aux {α : Type} (key : α → Nat) {k : Nat} {x : α} (x2 : α)
    (h2 : key x2 = key x) :
    ∀ {l : List α}, l.find? (fun b => decide (key b = k)) = some x →
      (l.map (fun b => if key b = key x then x2 else b)).find?
        (fun b => decide (key b = k)) = some x2 := by
  intro l
  induction l with
  | nil => intro h; simp at h
  | cons y ys ih =>
    intro h
    by_cases hy : key y = k
    · have hx : y = x := by
        rw [List.find?_cons_of_pos ys (by simpa using hy)] at h
        exact Option.some.inj h
      subst hx
      simp only [List.map_cons, if_pos rfl]
      exact List.find?_cons_of_pos _ (by simpa using h2.trans hy)
    · have hfind : ys.find? (fun b => decide (key b = k)) = some x := by
        rwa [List.find?_cons_of_neg ys (by simpa using hy)] at h
      have hkx : key x = k := by simpa using List.find?_some hfind
      have hyx : key y ≠ key x := fun hc => hy (hc.trans hkx)
      simp only [List.map_cons, if_neg hyx]
      rw [List.find?_cons_of_neg _ (by simpa using hy)]
      exact ih hfind

/-- Restatement of the replacement lemma with the search equation first, so
the replaced document is determined by the search. -/
theorem find?_map_replace {α : Type} (key : α → Nat) {k : Nat} {x : α} (x2 : α)
    {l : List α} (hl : l.find? (fun b => decide (key b = k)) = some x)
    (h2 : key x2 = key x) :
    (l.map (fun b => if key b = key x then x2 else b)).find?
      (fun b => decide (key b = k)) = some x2 :=
  find?_map_replace_aux key x2 h2 hl

/-- Appending to a list in which a search fails leaves the search to the
appended part: this is how an insert behaves for a collection in which the
preceding findOne matched nothing. -/
theorem find?_append_of_none {α : Type} {p : α → Bool} {l1 : List α}
    (l2 : List α) (h : l1.find? p = none) :
    (l1 ++ l2).find? p = l2.find? p := by
  simp [List.find?_append, h]

/-- C1 counterexample.  An appointment marked completed is non-cancelled,
yet createAppointment books the same (date, time) pair again: the first
create succeeds, the admin marks it completed, the second create succeeds
too, and the store then holds two non-cancelled appointments on the pair,
so the claimed invariant fails and the second create did not fail with
SlotTaken. -/
theorem create_ignores_completed_holder :
    (createAppointment emptyStore c1Req1).1 = Except.ok (newAppointment c1Req1) ∧
    getAppointment c1S2 1 =
      some ⟨1, 19884, ⟨10, 0⟩, AppStatus.completed, ApptPayStatus.pending, none⟩ ∧
    (createAppointment c1S2 c1Req2).1 = Except.ok (newAppointment c1Req2) ∧
    nonCancelledAt c1S3 19884 ⟨10, 0⟩ = 2 := by decide

/-- C2.  The booked-slot check and the insert of createAppointment are two
separate storage operations with no atomicity: in the interleaving where
both concurrent requests run the check against the same store before either
inserts, both observe the slot free (and a single request really is this
check followed by this insert), so both inserts go through and the pair
ends up doubly booked. -/
theorem create_race_both_succeed :
    slotIsFree emptyStore 19884 ⟨10, 0⟩ = true ∧
    createAppointment emptyStore c1Req1 =
      (Except.ok (newAppointment c1Req1), insertAppointment emptyStore c1Req1) ∧
    activeCount (insertAppointment (insertAppointment emptyStore c1Req1) raceReqB)
      19884 ⟨10, 0⟩ = 2 := by decide

/-- C3.  No code path enforces maxAppointments: with an override capping
2024-06-10 at one appointment and one non-cancelled appointment already on
the date, a booking for a further slot succeeds on both create paths and no
CapacityExceeded error exists, leaving two non-cancelled appointments on a
date whose resolved cap is one. -/
theorem capacity_cap_not_enforced :
    getSetting capStore 19884 = some capSetting ∧
    capSetting.maxAppointments = 1 ∧
    nonCancelledOn capStore 19884 = 1 ∧
    (serverCreateAppointment capStore capReq).1 = Except.ok (newAppointment capReq) ∧
    (createAppointment capStore capReq).1 = Except.ok (newAppointment capReq) ∧
    nonCancelledOn (serverCreateAppointment capStore capReq).2 19884 = 2 := by decide

/-- C6.  getAvailableSlots never reads CalendarSettings: on 2024-06-10, a
Monday carrying an override with isAvailable false, it still returns the
full default slot list instead of the empty sequence the claim demands. -/
theorem available_slots_ignore_unavailable_override :
    getSetting c6Store 19884 = some c6Setting ∧
    c6Setting.isAvailable = false ∧
    getAvailableSlots c6Store 19884 = defaultSlots ∧
    defaultSlots ≠ [] := by decide

/-- C7.  The minute-of-day test of checkAvailability accepts 09:00 and
refuses 14:00 under the custom hours 09:00 to 12:00 of 2024-06-15, but the
booking route never consults custom hours: booking 09:00 succeeds as the
claim says, while booking 14:00 also succeeds instead of failing with
SlotOutsideHours. -/
theorem booking_bypasses_custom_hours :
    isSlotWithinHours ⟨9, 0⟩ juneHours = true ∧
    isSlotWithinHours ⟨14, 0⟩ juneHours = false ∧
    checkAvailability c7Store 19889 ⟨14, 0⟩ = false ∧
    (serverCreateAppointment c7Store ⟨1, 19889, ⟨9, 0⟩⟩).1 =
      Except.ok (newAppointment ⟨1, 19889, ⟨9, 0⟩⟩) ∧
    (serverCreateAppointment c7Store ⟨1, 19889, ⟨14, 0⟩⟩).1 =
      Except.ok (newAppointment ⟨1, 19889, ⟨14, 0⟩⟩) := by decide

/-- C9.  When the object-store upload fails, submitPayment answers
ReceiptStoreFailure and creates no Payment and leaves the appointment
untouched, but the temp receipt file multer wrote is still on disk: the
unlink sits only in the exception handler, which the structured failure
path never reaches. -/
theorem upload_failure_keeps_temp_file :
    validateFile c9Receipt = true ∧
    submitPayment c9Store [c9Receipt.path] c9Req (Except.error "cloudinary error") =
      (Except.error ApiError.ReceiptStoreFailure, c9Store, [c9Receipt.path]) ∧
    c9Receipt.path ∈ [c9Receipt.path] := by decide

/-- C5 counterexample.  A rejection reason of five spaces has length five,
yet rejectPayment refuses it with the validation error and mutates nothing,
because the source tests the trimmed length, not the length. -/
theorem reject_five_space_reason_refused :
    fiveSpaces.length = 5 ∧
    rejectPayment c5Store 1 (some fiveSpaces) =
      (Except.error ApiError.ValidationError, c5Store) := by decide

/-- C1 amended.  Booking exclusion as each cited create path implements it.
Through createAppointment of appointmentController.js: a create fails with
SlotTaken and changes nothing while a pending or confirmed appointment
holds the pair; a pair held by no pending or confirmed appointment (in
particular one held only by cancelled or completed appointments) can be
booked again; and the operation preserves the invariant that at most one
pending-or-confirmed appointment occupies a given pair.  Through the
server.js booking route: on a date whose override, if any, is available,
any appointment on the pair blocks regardless of status, so a pair held
only by cancelled or completed appointments stays blocked there; that
route preserves the same invariant. -/
theorem create_slot_exclusion (s : Store) (req : BookingRequest) :
    ((∃ a ∈ s.appointments,
        blocksSlot req.appointmentDate req.appointmentTime a = true) →
      createAppointment s req = (Except.error ApiError.SlotTaken, s)) ∧
    ((∀ a ∈ s.appointments,
        blocksSlot req.appointmentDate req.appointmentTime a = false) →
      req.appointmentTime ∈ defaultSlots →
      (createAppointment s req).1 = Except.ok (newAppointment req)) ∧
    (slotInvariant s → slotInvariant (createAppointment s req).2) ∧
    ((∃ a ∈ s.appointments, a.appointmentDate = req.appointmentDate ∧
        a.appointmentTime = req.appointmentTime) →
      (∀ c, getSetting s req.appointmentDate = some c → c.isAvailable = true) →
      serverCreateAppointment s req = (Except.error ApiError.SlotTaken, s)) ∧
    (slotInvariant s → slotInvariant (serverCreateAppointment s req).2) := by
  have hphaseTaken : (∃ a ∈ s.appointments,
      a.appointmentDate = req.appointmentDate ∧
        a.appointmentTime = req.appointmentTime) →
      serverCreateSlotPhase s req = (Except.error ApiError.SlotTaken, s) := by
    rintro ⟨a, ha, hd, ht⟩
    cases hf : s.appointments.find? (sameSlot req.appointmentDate req.appointmentTime) with
    | none =>
      have hna := List.find?_eq_none.mp hf a ha
      simp [sameSlot, hd, ht] at hna
    | some b => simp [serverCreateSlotPhase, hf]
  have hphaseInv : slotInvariant s → slotInvariant (serverCreateSlotPhase s req).2 := by
    intro hinv
    cases hf : s.appointments.find? (sameSlot req.appointmentDate req.appointmentTime) with
    | some b => simpa [serverCreateSlotPhase, hf] using hinv
    | none =>
      by_cases hmem : req.appointmentTime ∈ defaultSlots
      · intro d t
        have hzero : List.countP
            (blocksSlot req.appointmentDate req.appointmentTime) s.appointments = 0 := by
          refine List.countP_eq_zero.mpr (fun a ha => ?_)
          have hna := List.find?_eq_none.mp hf a ha
          simp only [sameSlot, decide_eq_true_eq] at hna
          simp only [blocksSlot, decide_eq_true_eq]
          exact fun hc => hna ⟨hc.1, hc.2.1⟩
        simp only [serverCreateSlotPhase, hf, if_pos hmem, activeCount, slotInvariant]
        by_cases hdt : d = req.appointmentDate ∧ t = req.appointmentTime
        · obtain ⟨hd, ht⟩ := hdt
          subst hd
          subst ht
          have hnew : blocksSlot req.appointmentDate req.appointmentTime
              (newAppointment req) = true := by
            simp [blocksSlot, newAppointment]
          simp [List.countP_append, List.countP_cons, hzero, hnew]
        · have hnew : blocksSlot d t (newAppointment req) = false := by
            simp only [blocksSlot, newAppointment, decide_eq_false_iff_not]
            intro hc
            exact hdt ⟨hc.1.symm, hc.2.1.symm⟩
          have hle := hinv d t
          simp only [activeCount] at hle
          simp [List.countP_append, List.countP_cons, hnew, hle]
      · simpa [serverCreateSlotPhase, hf, if_neg hmem] using hinv
  refine ⟨?_, ?_, ?_, ?_, ?_⟩
  · rintro ⟨a, ha, hb⟩
    cases hf : s.appointments.find? (blocksSlot req.appointmentDate req.appointmentTime) with
    | none => exact absurd hb (by simpa using List.find?_eq_none.mp hf a ha)
    | some b => simp [createAppointment, hf]
  · intro hall hmem
    have hf : s.appointments.find?
        (blocksSlot req.appointmentDate req.appointmentTime) = none :=
      List.find?_eq_none.mpr (fun x hx => by simp [hall x hx])
    simp [createAppointment, hf, hmem]
  · intro hinv
    cases hf : s.appointments.find? (blocksSlot req.appointmentDate req.appointmentTime) with
    | some b => simpa [createAppointment, hf] using hinv
    | none =>
      by_cases hmem : req.appointmentTime ∈ defaultSlots
      · intro d t
        have hzero : List.countP
            (blocksSlot req.appointmentDate req.appointmentTime) s.appointments = 0 :=
          List.countP_eq_zero.mpr (fun a ha => by simpa using List.find?_eq_none.mp hf a ha)
        simp only [createAppointment, hf, if_pos hmem, activeCount, slotInvariant]
        by_cases hdt : d = req.appointmentDate ∧ t = req.appointmentTime
        · obtain ⟨hd, ht⟩ := hdt
          subst hd
          subst ht
          have hnew : blocksSlot req.appointmentDate req.appointmentTime
              (newAppointment req) = true := by
            simp [blocksSlot, newAppointment]
          simp [List.countP_append, List.countP_cons, hzero, hnew]
        · have hnew : blocksSlot d t (newAppointment req) = false := by
            simp only [blocksSlot, newAppointment, decide_eq_false_iff_not]
            intro hc
            exact hdt ⟨hc.1.symm, hc.2.1.symm⟩
          have hle := hinv d t
          simp only [activeCount] at hle
          simp [List.countP_append, List.countP_cons, hnew, hle]
      · simpa [createAppointment, hf, if_neg hmem] using hinv
  · intro hex hset
    cases hs : s.settings.find? (fun c => decide (c.date = req.appointmentDate)) with
    | none =>
      simp only [serverCreateAppointment, hs]
      exact hphaseTaken hex
    | some c =>
      have hc : c.isAvailable = true := hset c (by simpa [getSetting] using hs)
      simp only [serverCreateAppointment, hs, hc, if_true]
      exact hphaseTaken hex
  · intro hinv
    cases hs : s.settings.find? (fun c => decide (c.date = req.appointmentDate)) with
    | none =>
      simp only [serverCreateAppointment, hs]
      exact hphaseInv hinv
    | some c =>
      cases hc : c.isAvailable with
      | true =>
        simp only [serverCreateAppointment, hs, hc, if_true]
        exact hphaseInv hinv
      | false => simpa [serverCreateAppointment, hs, hc] using hinv

/-- C1 amended, witness: the slot of the first booking refuses a second
booking through the controller while the holder is pending; the empty
store books successfully and the invariant survives the booking on both
paths; and the server.js route refuses the pair even though its only
holder is cancelled. -/
theorem create_slot_exclusion_witness :
    createAppointment c1S1 c1Req2 = (Except.error ApiError.SlotTaken, c1S1) ∧
    (createAppointment emptyStore c1Req1).1 = Except.ok (newAppointment c1Req1) ∧
    slotInvariant (createAppointment emptyStore c1Req1).2 ∧
    serverCreateAppointment c1CancelledStore c1Req2 =
      (Except.error ApiError.SlotTaken, c1CancelledStore) ∧
    slotInvariant (serverCreateAppointment emptyStore c1Req1).2 := by
  refine ⟨(create_slot_exclusion c1S1 c1Req2).1 ⟨newAppointment c1Req1, by decide, by decide⟩,
    (create_slot_exclusion emptyStore c1Req1).2.1 ?_ (by decide),
    (create_slot_exclusion emptyStore c1Req1).2.2.1 ?_,
    (create_slot_exclusion c1CancelledStore c1Req2).2.2.2.1
      ⟨⟨1, 19884, ⟨10, 0⟩, AppStatus.cancelled, ApptPayStatus.failed, none⟩,
        by decide, by decide, by decide⟩ ?_,
    (create_slot_exclusion emptyStore c1Req1).2.2.2.2 ?_⟩
  · intro a ha
    simp [emptyStore] at ha
  · intro d t
    simp [slotInvariant, activeCount, emptyStore]
  · intro c hc
    simp [getSetting, c1CancelledStore] at hc
  · intro d t
    simp [slotInvariant, activeCount, emptyStore]

/-- C4.  verifyPayment on a payment not yet verified marks the payment
verified with the verifier identity and notes, and marks the linked
appointment confirmed with paymentStatus verified; on an already-verified
payment it fails with AlreadyVerified and returns the store unchanged. -/
theorem verifyPayment_spec (s : Store) (pid : Nat) (notes : Option String)
    (admin : String) (p : Payment) (a : Appointment)
    (hp : getPayment s pid = some p)
    (ha : getAppointment s p.appointmentId = some a) :
    (p.status = PaymentStatus.verified →
      verifyPayment s pid notes admin = (Except.error ApiError.AlreadyVerified, s)) ∧
    (p.status ≠ PaymentStatus.verified →
      (verifyPayment s pid notes admin).1 = Except.ok (verifiedPayment p admin notes) ∧
      getPayment (verifyPayment s pid notes admin).2 pid =
        some (verifiedPayment p admin notes) ∧
      getAppointment (verifyPayment s pid notes admin).2 p.appointmentId =
        some (confirmAppt a)) := by
  simp only [getPayment] at hp
  simp only [getAppointment] at ha
  constructor
  · intro hv
    simp [verifyPayment, hp, hv]
  · intro hv
    have hres : verifyPayment s pid notes admin =
        (Except.ok (verifiedPayment p admin notes),
          { appointments := s.appointments.map
              (fun b : Appointment => if b.id = a.id then confirmAppt a else b),
            payments := s.payments.map
              (fun q : Payment => if q.id = p.id then verifiedPayment p admin notes else q),
            settings := s.settings }) := by
      simp [verifyPayment, hp, hv, ha]
    refine ⟨by rw [hres], ?_, ?_⟩
    · rw [hres]
      simp only [getPayment]
      exact find?_map_replace (fun q : Payment => q.id) (verifiedPayment p admin notes) hp rfl
    · rw [hres]
      simp only [getAppointment]
      exact find?_map_replace (fun b : Appointment => b.id) (confirmAppt a) ha rfl

/-- C4, witness: verifying the already-verified demo payment fails with
AlreadyVerified and changes nothing; verifying the pending demo payment
updates both the payment and its appointment. -/
theorem verifyPayment_spec_witness :
    verifyPayment c4VerStore 1 none "admin" =
      (Except.error ApiError.AlreadyVerified, c4VerStore) ∧
    ((verifyPayment c5Store 1 (some "ok to confirm") "admin").1 =
        Except.ok (verifiedPayment c5Pay "admin" (some "ok to confirm")) ∧
      getPayment (verifyPayment c5Store 1 (some "ok to confirm") "admin").2 1 =
        some (verifiedPayment c5Pay "admin" (some "ok to confirm")) ∧
      getAppointment (verifyPayment c5Store 1 (some "ok to confirm") "admin").2 1 =
        some (confirmAppt c5Appt)) :=
  ⟨(verifyPayment_spec c4VerStore 1 none "admin" c4VerPay c4VerAppt rfl rfl).1 rfl,
    (verifyPayment_spec c5Store 1 (some "ok to confirm") "admin" c5Pay c5Appt rfl rfl).2
      (by decide)⟩

/-- C5 amended.  With a rejection reason whose trimmed length is at least
five, rejectPayment marks the payment rejected with the reason recorded and
the linked appointment cancelled with paymentStatus failed, regardless of
their prior state; with a reason whose trimmed length is below five (in
particular any reason of length four or less), it fails with the validation
error and mutates nothing. -/
theorem rejectPayment_spec (s : Store) (pid : Nat) (r : String)
    (p : Payment) (a : Appointment)
    (hp : getPayment s pid = some p)
    (ha : getAppointment s p.appointmentId = some a) :
    (5 ≤ trimmedLength r →
      (rejectPayment s pid (some r)).1 = Except.ok (rejectedPayment p r) ∧
      getPayment (rejectPayment s pid (some r)).2 pid = some (rejectedPayment p r) ∧
      getAppointment (rejectPayment s pid (some r)).2 p.appointmentId =
        some (cancelAppt a)) ∧
    (trimmedLength r < 5 →
      rejectPayment s pid (some r) = (Except.error ApiError.ValidationError, s)) := by
  simp only [getPayment] at hp
  simp only [getAppointment] at ha
  constructor
  · intro hr
    have hnot : ¬ (trimmedLength r < 5) := by omega
    have hres : rejectPayment s pid (some r) =
        (Except.ok (rejectedPayment p r),
          { appointments := s.appointments.map
              (fun b : Appointment => if b.id = a.id then cancelAppt a else b),
            payments := s.payments.map
              (fun q : Payment => if q.id = p.id then rejectedPayment p r else q),
            settings := s.settings }) := by
      simp [rejectPayment, hnot, hp, ha]
    refine ⟨by rw [hres], ?_, ?_⟩
    · rw [hres]
      simp only [getPayment]
      exact find?_map_replace (fun q : Payment => q.id) (rejectedPayment p r) hp rfl
    · rw [hres]
      simp only [getAppointment]
      exact find?_map_replace (fun b : Appointment => b.id) (cancelAppt a) ha rfl
  · intro hr
    simp [rejectPayment, hr]

/-- C5 amended, witness: a readable reason rejects the demo payment and
cancels its appointment; the four-letter reason is refused unchanged. -/
theorem rejectPayment_spec_witness :
    ((rejectPayment c5Store 1 (some "receipt unreadable")).1 =
        Except.ok (rejectedPayment c5Pay "receipt unreadable") ∧
      getPayment (rejectPayment c5Store 1 (some "receipt unreadable")).2 1 =
        some (rejectedPayment c5Pay "receipt unreadable") ∧
      getAppointment (rejectPayment c5Store 1 (some "receipt unreadable")).2 1 =
        some (cancelAppt c5Appt)) ∧
    rejectPayment c5Store 1 (some "bad!") =
      (Except.error ApiError.ValidationError, c5Store) :=
  ⟨(rejectPayment_spec c5Store 1 "receipt unreadable" c5Pay c5Appt rfl rfl).1 (by decide),
    (rejectPayment_spec c5Store 1 "bad!" c5Pay c5Appt rfl rfl).2 (by decide)⟩

/-- C10.  When the appointment a payment references no longer exists, both
verifyPayment (on a not-yet-verified payment) and rejectPayment (with a
valid reason) still succeed: the payment status is updated, no NotFound is
returned for the missing appointment, and the appointments collection is
untouched. -/
theorem orphan_payment_updates_succeed (s : Store) (pid : Nat)
    (notes : Option String) (admin : String) (r : String) (p : Payment)
    (hp : getPayment s pid = some p)
    (hno : getAppointment s p.appointmentId = none)
    (hnv : p.status ≠ PaymentStatus.verified)
    (hr : 5 ≤ trimmedLength r) :
    ((verifyPayment s pid notes admin).1 = Except.ok (verifiedPayment p admin notes) ∧
      (verifyPayment s pid notes admin).2.appointments = s.appointments ∧
      getPayment (verifyPayment s pid notes admin).2 pid =
        some (verifiedPayment p admin notes)) ∧
    ((rejectPayment s pid (some r)).1 = Except.ok (rejectedPayment p r) ∧
      (rejectPayment s pid (some r)).2.appointments = s.appointments ∧
      getPayment (rejectPayment s pid (some r)).2 pid = some (rejectedPayment p r)) := by
  simp only [getPayment] at hp
  simp only [getAppointment] at hno
  constructor
  · have hres : verifyPayment s pid notes admin =
        (Except.ok (verifiedPayment p admin notes),
          { s with payments := (s.payments.map
              (fun q : Payment => if q.id = p.id then verifiedPayment p admin notes else q)) }) := by
      simp [verifyPayment, hp, hnv, hno]
    refine ⟨by rw [hres], by rw [hres], ?_⟩
    rw [hres]
    simp only [getPayment]
    exact find?_map_replace (fun q : Payment => q.id) (verifiedPayment p admin notes) hp rfl
  · have hnot : ¬ (trimmedLength r < 5) := by omega
    have hres : rejectPayment s pid (some r) =
        (Except.ok (rejectedPayment p r),
          { s with payments := (s.payments.map
              (fun q : Payment => if q.id = p.id then rejectedPayment p r else q)) }) := by
      simp [rejectPayment, hnot, hp, hno]
    refine ⟨by rw [hres], by rw [hres], ?_⟩
    rw [hres]
    simp only [getPayment]
    exact find?_map_replace (fun q : Payment => q.id) (rejectedPayment p r) hp rfl

/-- C10, witness: the orphaned demo payment verifies and rejects
successfully without touching the empty appointments collection. -/
theorem orphan_payment_updates_succeed_witness :
    ((verifyPayment c10Store 1 none "admin").1 =
        Except.ok (verifiedPayment c10Pay "admin" none) ∧
      (verifyPayment c10Store 1 none "admin").2.appointments = c10Store.appointments ∧
      getPayment (verifyPayment c10Store 1 none "admin").2 1 =
        some (verifiedPayment c10Pay "admin" none)) ∧
    ((rejectPayment c10Store 1 (some "no such booking")).1 =
        Except.ok (rejectedPayment c10Pay "no such booking") ∧
      (rejectPayment c10Store 1 (some "no such booking")).2.appointments =
        c10Store.appointments ∧
      getPayment (rejectPayment c10Store 1 (some "no such booking")).2 1 =
        some (rejectedPayment c10Pay "no such booking")) :=
  orphan_payment_updates_succeed c10Store 1 none "admin" "no such booking" c10Pay
    rfl rfl (by decide) (by decide)

/-- C8.  After a payment submission succeeds for an appointment, every
further submission for the same appointment (the route always carries a
receipt file) fails with DuplicatePayment and changes neither the
collections nor the disk, whatever its receipt or upload outcome; and a
successful submission preserves the invariant that at most one Payment
references any appointment (each Payment carries exactly one appointment
reference by construction). -/
theorem submitPayment_duplicate_guard (s : Store) (tempFiles : List String)
    (req req2 : SubmitRequest) (up up2 : Except String UploadSuccess)
    (p : Payment) (s2 : Store) (fs2 : List String)
    (hok : submitPayment s tempFiles req up = (Except.ok p, s2, fs2))
    (hsame : req2.appointmentId = req.appointmentId) :
    submitPayment s2 fs2 req2 up2 = (Except.error ApiError.DuplicatePayment, s2, fs2) ∧
    (onePaymentPerAppointment s → onePaymentPerAppointment s2) := by
  cases hA : s.appointments.find? (fun a => decide (a.id = req.appointmentId)) with
  | none =>
    simp only [submitPayment, hA] at hok
    simp at hok
  | some appt =>
    cases hP : s.payments.find? (fun q => decide (q.appointmentId = req.appointmentId)) with
    | some q =>
      simp only [submitPayment, hA, hP] at hok
      simp at hok
    | none =>
      by_cases hv : validateFile req.receipt = true
      · cases up with
        | error e =>
          simp only [submitPayment, hA, hP, if_pos hv] at hok
          simp at hok
        | ok upv =>
          simp only [submitPayment, hA, hP, if_pos hv] at hok
          simp only [Prod.mk.injEq] at hok
          obtain ⟨h1, h2, h3⟩ := hok
          subst h2
          subst h3
          have hA2 : (s.appointments.map (fun b : Appointment =>
              if b.id = appt.id then paidAppt appt (newPayment req).id else b)).find?
              (fun a : Appointment => decide (a.id = req.appointmentId)) =
              some (paidAppt appt (newPayment req).id) :=
            find?_map_replace (fun b : Appointment => b.id) _ hA rfl
          have hP2 : ((s.payments ++ [newPayment req]).find?
              (fun q : Payment => decide (q.appointmentId = req.appointmentId))) =
              some (newPayment req) := by
            rw [find?_append_of_none _ hP]
            simp [List.find?, newPayment]
          constructor
          · simp only [submitPayment, hsame, hA2, hP2]
          · intro hone aid
            simp only [onePaymentPerAppointment] at hone
            simp only [List.countP_append, List.countP_cons, List.countP_nil]
            by_cases haid : aid = req.appointmentId
            · subst haid
              have hzero : List.countP
                  (fun q : Payment => decide (q.appointmentId = req.appointmentId))
                  s.payments = 0 :=
                List.countP_eq_zero.mpr
                  (fun q hq => by simpa using List.find?_eq_none.mp hP q hq)
              simp [hzero, newPayment]
            · have hne : ¬ ((newPayment req).appointmentId = aid) := by
                simp only [newPayment]
                exact fun hc => haid hc.symm
              simpa [hne] using hone aid
      · simp only [submitPayment, hA, hP, if_neg hv] at hok
        simp at hok

/-- C8, witness: after the demo submission succeeds, resubmitting for the
same appointment fails with DuplicatePayment and leaves the store and disk
as they were, and the one-payment-per-appointment invariant holds in the
resulting store. -/
theorem submitPayment_duplicate_guard_witness :
    submitPayment c8Store2 [] c8Req c8Up =
      (Except.error ApiError.DuplicatePayment, c8Store2, []) ∧
    onePaymentPerAppointment c8Store2 := by
  have h := submitPayment_duplicate_guard c8Store [c8Receipt.path] c8Req c8Req c8Up c8Up
    c8Pay c8Store2 [] (by decide) rfl
  refine ⟨h.1, h.2 ?_⟩
  intro aid
  simp [c8Store]

end Mindwell
